import Mathlib

/-
Shallow embedding of the GoAtar grid-game simulators (MinAtar-style games
written in Go) and proofs about the claims of the specification.

Modelling conventions:
* Go `int` is embedded as `Int` (no overflow is relevant at these magnitudes).
* Go `float64` fields only ever hold small whole numbers (rewards, timers,
  car speeds, 0.0/1.0 grid cells); they are embedded as `Int` or `Bool`.
* `*rand.Rand` is embedded as an oracle stream of draws: each `rng.Intn(n)`
  call pops one number from the stream and reduces it `% n`.  No claim
  depends on the distribution of the generator, only on the set of values
  it can produce.
* Go runtime panics (out-of-range slice indexing) are embedded as `none`
  of an `Option` result; a normal return is `some`.
* Errors returned by the Go code are embedded as the inductive `GErr`,
  which distinguishes the error sites the claims talk about.
-/

namespace GoAtar

/-- Error values returned by the games' methods. -/
inductive GErr where
  | invalidAction
  | noSuchBallDirection
  deriving DecidableEq, Repr

/-- Result of one `Act` call: reward, terminal flag, error, and the updated
game value (Go mutates the receiver; we return it). -/
structure StepResult (σ : Type) where
  reward : Int
  terminal : Bool
  err : Option GErr
  state : σ
  deriving DecidableEq, Repr

/-- Oracle stream standing for the Go `*rand.Rand` owned by a game. -/
abbrev Rng := List Nat

/-- One `rng.Intn n` call: pop the next draw and reduce it into `[0, n)`. -/
def rngIntn (n : Nat) (r : Rng) : Nat × Rng :=
  (r.headD 0 % n, r.tail)

/-- Go `game.MinInt` restricted to its two-argument uses. -/
def minInt (a b : Int) : Int :=
  if b < a then b else a

/-- Go `game.MaxInt` restricted to its two-argument uses. -/
def maxInt (a b : Int) : Int :=
  if b > a then b else a

/-- Go `game.ClipInt`: clip `v` into `[lo, hi]`. -/
def clipInt (v lo hi : Int) : Int :=
  if v < lo then lo else if v > hi then hi else v

/-- The fixed six-action alphabet shared by every game:
`[]rune{'n', 'l', 'u', 'r', 'd', 'f'}`. -/
def actionMap : List Char := ['n', 'l', 'u', 'r', 'd', 'f']

/-- Grids of 0.0/1.0 cells (`*mat.Dense` used as a bit-mask). -/
abbrev Grid := List (List Bool)

/-- Cell read `matrix.At r c`.  In Go an out-of-range index panics; every
in-game read is in range, and the default `false` is never observable. -/
def gridAt (g : Grid) (r c : Int) : Bool :=
  (g.getD r.toNat []).getD c.toNat false

/-- Cell write `matrix.Set r c v`. -/
def gridSet (g : Grid) (r c : Int) (v : Bool) : Grid :=
  g.set r.toNat ((g.getD r.toNat []).set c.toNat v)

/-- Row write `matrix.SetRow i row`. -/
def gridSetRow (g : Grid) (r : Int) (row : List Bool) : Grid :=
  g.set r.toNat row

/-- An all-`false` row of width 10. -/
def zeroRow : List Bool := List.replicate 10 false

/-- An all-`true` row of width 10 (the `bricks`/`aliens` fill rows). -/
def oneRow : List Bool := List.replicate 10 true

/-- The empty 10×10 grid (`mat.NewDense(rows, cols, nil)`). -/
def zeroGrid : Grid := List.replicate 10 zeroRow

/-- Go `game.ContainsNonZero`: whether any cell is non-zero. -/
def containsNonZero (g : Grid) : Bool :=
  g.any fun row => row.any id

/-- Go `game.CountNonZero`.  Note: the Go body counts the elements that
are EQUAL to zero (`if elem == 0.0 { total++ }`), despite its name and
doc comment, so this definition counts the `false` cells. -/
def countNonZero (g : Grid) : Int :=
  g.foldl (fun acc row => acc + ((row.filter fun b => b = false).length : Int)) 0

/-- Go `game.RollRowsUp`: row `k` receives old row `k+1`; the bottom row
receives the old top row. -/
def rollRowsUp (g : Grid) : Grid :=
  g.drop 1 ++ g.take 1

/-- Go `game.RollRowsDown`: row `k+1` receives old row `k`; the top row
receives the old bottom row. -/
def rollRowsDown (g : Grid) : Grid :=
  g.drop 9 ++ g.take 9

/-- Go `game.RollColsLeft` applied to every row. -/
def rollRowLeft (row : List Bool) : List Bool :=
  row.drop 1 ++ row.take 1

/-- Go `game.RollColsRight` applied to every row. -/
def rollRowRight (row : List Bool) : List Bool :=
  row.drop 9 ++ row.take 9

/-- Go `game.RollColsLeft`: column `k` receives old column `k+1`. -/
def rollColsLeft (g : Grid) : Grid :=
  g.map rollRowLeft

/-- Go `game.RollColsRight`: column `k+1` receives old column `k`. -/
def rollColsRight (g : Grid) : Grid :=
  g.map rollRowRight

/-- Whether `mat.Sum(matrix.ColView c) > 0`: some row has a set cell in
column `c`. -/
def colSumPos (g : Grid) (c : Int) : Bool :=
  g.any fun row => row.getD c.toNat false

/-- Whether `mat.Sum(matrix.RowView r) > 0`. -/
def rowSumPos (g : Grid) (r : Int) : Bool :=
  (g.getD r.toNat []).any id

/-- Iterate `step` over indices `n-1, n-2, …, 0` in that order — the Go
pattern `for i := len - 1; i > -1; i--`. -/
def downFrom {σ : Type} (n : Nat) (step : Nat → σ → σ) (s : σ) : σ :=
  match n with
  | 0 => s
  | k + 1 => downFrom k step (step k s)

/-- Iterate `step` over indices `0, 1, …, n-1` in that order — the Go
pattern `for i := 0; i < len; i++` (or `range` over a slice). -/
def upTo {σ : Type} (n : Nat) (step : Nat → σ → σ) (s : σ) : σ :=
  (List.range n).foldl (fun t i => step i t) s

end GoAtar

namespace GoAtar.Breakout

/-
Embedding of src/internal/game/breakout/Breakout.go.
rows = cols = 10; channels and the cached observation are not part of the
dynamics and are omitted; `rng` is only consumed by `Reset`, which takes
the draw stream as an argument.
-/

/-- The mutable fields of the Go `Breakout` struct. -/
structure Game where
  ballY : Int
  ballStart : Int
  ballX : Int
  ballDir : Int
  position : Int
  brickMap : Grid
  strike : Bool
  lastX : Int
  lastY : Int
  terminal : Bool
  deriving DecidableEq, Repr

/-- The brick refill loop: `for i := 0; i < 4*rows/10; i++ { SetRow(i, bricks) }`. -/
def fullBricks (g : Grid) : Grid :=
  upTo 4 (fun i g => gridSetRow g (Int.ofNat i) oneRow) g

/-- Breakout `Reset`: ball starts on row 3 at a random side, paddle at 4,
rows 0–3 full of bricks. -/
def reset (r : Rng) : Game :=
  let (ballStart, _) := rngIntn 2 r
  let ballX : Int := if ballStart = 0 then 0 else 9
  let ballDir : Int := if ballStart = 0 then 2 else 3
  { ballY := 3
    ballStart := (ballStart : Int)
    ballX := ballX
    ballDir := ballDir
    position := 4
    brickMap := fullBricks zeroGrid
    strike := false
    lastX := ballX
    lastY := 3
    terminal := false }

/-- The side-wall reflection table `[4]int{1, 0, 3, 2}`.  Go panics on an
index outside `[0, 4)`; every call site has already matched the direction
against 0–3, so the final `else` is unreachable. -/
def bounceSide (d : Int) : Int :=
  if d = 0 then 1 else if d = 1 then 0 else if d = 2 then 3 else 2

/-- The top/brick/paddle-center reflection table `[4]int{3, 2, 1, 0}`. -/
def bounceVert (d : Int) : Int :=
  if d = 0 then 3 else if d = 1 then 2 else if d = 2 then 1 else 0

/-- The paddle-edge reflection table `[4]int{2, 3, 0, 1}`. -/
def bounceEdge (d : Int) : Int :=
  if d = 0 then 2 else if d = 1 then 3 else if d = 2 then 0 else 1

/-- The paddle move inside `Act`: `'l'` clamps with `maxInt 0`, while the
`'r'` case of the source reads `maxInt(rows-1, b.position+1)` — a `maxInt`
where the clamp called for `minInt`. -/
def resolvePaddle (action : Char) (p : Int) : Int :=
  if action = 'l' then maxInt 0 (p - 1)
  else if action = 'r' then maxInt 9 (p + 1)
  else p

/-- The `switch b.ballDir` computing the ball's next cell; the `default`
branch (an error return in Go) is `none`. -/
def ballStep (d x y : Int) : Option (Int × Int) :=
  if d = 0 then some (x - 1, y - 1)
  else if d = 1 then some (x + 1, y - 1)
  else if d = 2 then some (x + 1, y + 1)
  else if d = 3 then some (x - 1, y + 1)
  else none

/-- The `// Break bricks` part of `Act`: side-wall reflection, then the
top-wall / brick / bottom-row cases, then the strike reset and the final
ball-position write.  `position` is the already-moved paddle, and
`(newX0, newY0)` the tentative ball cell. -/
def actCore (b : Game) (position newX0 newY0 : Int) : StepResult Game :=
  let lastX := b.ballX
  let lastY := b.ballY
  let hitSide := newX0 < 0 ∨ newX0 > 9
  let newX := if hitSide then clipInt newX0 0 9 else newX0
  let dir1 := if hitSide then bounceSide b.ballDir else b.ballDir
  if newY0 < 0 then
    ⟨0, false, none,
      { b with position := position, lastX := lastX, lastY := lastY,
               ballDir := bounceVert dir1, strike := false,
               ballX := newX, ballY := 0 }⟩
  else if gridAt b.brickMap newY0 newX then
    if b.strike then
      ⟨0, false, none,
        { b with position := position, lastX := lastX, lastY := lastY,
                 ballDir := dir1, ballX := newX, ballY := newY0 }⟩
    else
      ⟨1, false, none,
        { b with position := position, lastX := lastX, lastY := lastY,
                 strike := true,
                 brickMap := gridSet b.brickMap newY0 newX false,
                 ballDir := bounceVert dir1,
                 ballX := newX, ballY := lastY }⟩
  else if newY0 = 9 then
    let brickMap :=
      if containsNonZero b.brickMap then fullBricks b.brickMap else b.brickMap
    if b.ballX = position then
      ⟨0, false, none,
        { b with position := position, lastX := lastX, lastY := lastY,
                 brickMap := brickMap, ballDir := bounceVert dir1,
                 strike := false, ballX := newX, ballY := lastY }⟩
    else if newX = position then
      ⟨0, false, none,
        { b with position := position, lastX := lastX, lastY := lastY,
                 brickMap := brickMap, ballDir := bounceEdge dir1,
                 strike := false, ballX := newX, ballY := lastY }⟩
    else
      ⟨0, true, none,
        { b with position := position, lastX := lastX, lastY := lastY,
                 brickMap := brickMap, terminal := true, ballDir := dir1,
                 strike := false, ballX := newX, ballY := newY0 }⟩
  else
    ⟨0, false, none,
      { b with position := position, lastX := lastX, lastY := lastY,
               ballDir := dir1, strike := false, ballX := newX, ballY := newY0 }⟩

/-- Breakout `Act`.  Mirrors the Go control flow: validate the action,
no-op when terminal, move the paddle, move the ball along its diagonal
(the unreachable `default` direction returns the `no such ball direction`
error with the paddle and trail already updated), then `actCore`. -/
def act (a : Int) (b : Game) : StepResult Game :=
  if a ≥ 6 ∨ a < 0 then ⟨-1, false, some .invalidAction, b⟩
  else if b.terminal then ⟨0, b.terminal, none, b⟩
  else
    let action := actionMap.getD a.toNat 'n'
    let position := resolvePaddle action b.position
    match ballStep b.ballDir b.ballX b.ballY with
    | none =>
        ⟨0, false, some .noSuchBallDirection,
          { b with position := position, lastX := b.ballX, lastY := b.ballY }⟩
    | some (newX0, newY0) => actCore b position newX0 newY0

/-- Run a sequence of `Act` calls, keeping the state component. -/
def run (as : List Int) (b : Game) : Game :=
  as.foldl (fun s a => (act a s).state) b

/-- The states reachable by `Reset` (any draw) followed by any `Act` calls. -/
inductive Reachable : Game → Prop where
  | reset : ∀ r : Rng, Reachable (Breakout.reset r)
  | step : ∀ (a : Int) (b : Game), Reachable b → Reachable (act a b).state

theorem bounceSide_range (d : Int) : 0 ≤ bounceSide d ∧ bounceSide d < 4 := by
  unfold bounceSide
  split_ifs <;> omega

theorem bounceVert_range (d : Int) : 0 ≤ bounceVert d ∧ bounceVert d < 4 := by
  unfold bounceVert
  split_ifs <;> omega

theorem bounceEdge_range (d : Int) : 0 ≤ bounceEdge d ∧ bounceEdge d < 4 := by
  unfold bounceEdge
  split_ifs <;> omega

end GoAtar.Breakout

namespace GoAtar.Breakout

theorem ballStep_isSome (d x y : Int) (h0 : 0 ≤ d) (h4 : d < 4) :
    (ballStep d x y).isSome := by
  unfold ballStep
  split_ifs <;> simp_all
  omega

theorem actCore_ballDir_range (b : Game) (position newX0 newY0 : Int)
    (h0 : 0 ≤ b.ballDir) (h4 : b.ballDir < 4) :
    0 ≤ (actCore b position newX0 newY0).state.ballDir ∧
    (actCore b position newX0 newY0).state.ballDir < 4 := by
  unfold actCore
  dsimp only
  split_ifs <;>
    dsimp only <;>
    first
      | exact ⟨h0, h4⟩
      | exact bounceSide_range _
      | exact bounceVert_range _
      | exact bounceEdge_range _

theorem actCore_err (b : Game) (position newX0 newY0 : Int) :
    (actCore b position newX0 newY0).err ≠ some GErr.noSuchBallDirection := by
  unfold actCore
  dsimp only
  split_ifs <;> simp

theorem act_ballDir_range (a : Int) (b : Game)
    (h0 : 0 ≤ b.ballDir) (h4 : b.ballDir < 4) :
    0 ≤ (act a b).state.ballDir ∧ (act a b).state.ballDir < 4 := by
  unfold act
  split_ifs
  · exact ⟨h0, h4⟩
  · exact ⟨h0, h4⟩
  · rcases hbs : ballStep b.ballDir b.ballX b.ballY with _ | ⟨nx, ny⟩
    · have := ballStep_isSome b.ballDir b.ballX b.ballY h0 h4
      rw [hbs] at this
      simp at this
    · simp only [hbs]
      exact actCore_ballDir_range b _ nx ny h0 h4

theorem act_no_dir_error (a : Int) (b : Game)
    (h0 : 0 ≤ b.ballDir) (h4 : b.ballDir < 4) :
    (act a b).err ≠ some GErr.noSuchBallDirection := by
  unfold act
  split_ifs
  · simp
  · simp
  · rcases hbs : ballStep b.ballDir b.ballX b.ballY with _ | ⟨nx, ny⟩
    · have := ballStep_isSome b.ballDir b.ballX b.ballY h0 h4
      rw [hbs] at this
      simp at this
    · simp only [hbs]
      exact actCore_err b _ nx ny

theorem reset_ballDir_range (r : Rng) :
    0 ≤ (Breakout.reset r).ballDir ∧ (Breakout.reset r).ballDir < 4 := by
  unfold Breakout.reset
  dsimp only
  split_ifs <;> norm_num

theorem reachable_ballDir_range (b : Game) (h : Reachable b) :
    0 ≤ b.ballDir ∧ b.ballDir < 4 := by
  induction h with
  | reset r => exact reset_ballDir_range r
  | step a b _ ih => exact act_ballDir_range a b ih.1 ih.2

/-- C10: in every Breakout state reachable by `Reset` followed by any
sequence of `Act` calls, the ball direction index lies in `{0, 1, 2, 3}`
(`Reset` picks it from `{2, 3}` and every reflection table maps the set
into itself), so the `no such ball direction` default branch of `Act` is
unreachable and `Act` never returns that error. -/
theorem C10_breakout_ballDir_invariant (b : Game) (h : Reachable b) :
    (0 ≤ b.ballDir ∧ b.ballDir < 4) ∧
    ∀ a : Int, (act a b).err ≠ some GErr.noSuchBallDirection := by
  have hr := reachable_ballDir_range b h
  exact ⟨hr, fun a => act_no_dir_error a b hr.1 hr.2⟩

/-- Witness for C10 at the concrete reset state with draw stream `[]`. -/
theorem C10_breakout_ballDir_invariant_witness :
    (0 ≤ (Breakout.reset []).ballDir ∧ (Breakout.reset []).ballDir < 4) ∧
    (act 0 (Breakout.reset [])).err ≠ some GErr.noSuchBallDirection :=
  ⟨(C10_breakout_ballDir_invariant _ (Reachable.reset [])).1,
   (C10_breakout_ballDir_invariant _ (Reachable.reset [])).2 0⟩

/-- C6: the claim says a 'right' `Act` sets the paddle to `min(9, p+1)`.
The source instead computes `maxInt(rows-1, b.position+1)`: from the reset
position 4 one 'right' jumps straight to 9, and a second 'right' leaves
the 10-wide grid at position 10.  (`'r'` is action code 3.) -/
theorem C6_breakout_paddle_right_not_clamped :
    (Breakout.reset []).position = 4 ∧
    (act 3 (Breakout.reset [])).state.position = 9 ∧
    (act 3 (act 3 (Breakout.reset [])).state).state.position = 10 := by
  decide

/-- The Breakout state reached from `Reset` (left ball start) by six no-op
actions: the ball runs the diagonal from (0, 3) to the bottom row and the
episode terminates on the sixth step. -/
def c1TerminalState : Game :=
  run (List.replicate 6 0) (Breakout.reset [])

/-- C1 counterexample: in a reachable terminal Breakout state, an `Act`
with the out-of-range action code 6 does not return `(0.0, true, none)`
as the claim states for "any action code whatsoever": action validation
runs before the terminal check, so the call returns reward `-1`, reports
`terminal = false`, and yields a non-nil error. -/
theorem C1_cex_invalid_action_in_terminal_state :
    c1TerminalState.terminal = true ∧
    act 6 c1TerminalState =
      ⟨-1, false, some GErr.invalidAction, c1TerminalState⟩ := by
  decide

end GoAtar.Breakout

namespace GoAtar.Freeway

/-
Embedding of the freeway package (Freeway.go).  The 8×4 `cars` matrix is
embedded as a list of records, one per row: columns 0–3 are the car's x
position, its fixed y position (row), its countdown, and its signed speed.
The Go struct's `moveTimer` is a float64 that only ever holds the whole
values 0–3 (playerSpeed = 3.0), so it is embedded as `Int`.
-/

/-- One row of the 8×4 `cars` matrix. -/
structure Car where
  x : Int
  y : Int
  timer : Int
  speed : Int
  deriving DecidableEq, Repr

/-- The mutable fields of the Go `Freeway` struct. -/
structure Game where
  cars : List Car
  position : Int
  moveTimer : Int
  terminateTimer : Int
  terminal : Bool
  rng : Rng
  deriving DecidableEq, Repr

/-- Draw `n` values `rng.Intn bound` in sequence. -/
def drawN (n : Nat) (bound : Nat) (r : Rng) : List Nat × Rng :=
  match n with
  | 0 => ([], r)
  | k + 1 =>
    let (v, r1) := rngIntn bound r
    let (vs, r2) := drawN k bound r1
    (v :: vs, r2)

/-- Freeway `randomizeCars`: 8 direction draws (`Intn(2)-1 == 0` picks
`-1`, otherwise `+1`), then 8 speed draws `direction * (Intn(4)+1)`.
With `init` the cars matrix is rebuilt with `x = 0`, `y = i+1`; otherwise
only the countdown and speed columns are overwritten. -/
def randomizeCars (init : Bool) (f : Game) : Game :=
  let (dirDraws, r1) := drawN 8 2 f.rng
  let directions := dirDraws.map fun d => if d = 1 then (-1 : Int) else 1
  let (speedDraws, r2) := drawN 8 4 r1
  let speeds := List.zipWith (fun dir d => dir * ((d : Int) + 1)) directions speedDraws
  if init then
    { f with rng := r2,
             cars := (List.range 8).map fun i =>
               { x := 0, y := Int.ofNat i + 1,
                 timer := ((speeds.getD i 0).natAbs : Int),
                 speed := speeds.getD i 0 } }
  else
    { f with rng := r2,
             cars := List.zipWith
               (fun c s => { c with timer := (s.natAbs : Int), speed := s })
               f.cars speeds }

/-- Freeway `Reset`. -/
def reset (r : Rng) : Game :=
  let base : Game :=
    { cars := [], position := 9, moveTimer := 3, terminateTimer := 2500,
      terminal := false, rng := r }
  let f := randomizeCars true base
  { f with position := 9, moveTimer := 3, terminateTimer := 2500,
           terminal := false }

/-- The body of the per-car loop in `Act`: a pre-move collision check; if
the countdown hit zero the countdown is reset to `|speed|` and the car is
moved — `x+1` for a positive speed, while the negative-speed branch of the
source writes the constant 9 — then wrapped from 10 back to 0, followed by
a post-move collision check.  Collisions put the chicken back at row 9. -/
def carStep (c : Car) (pos : Int) : Car × Int :=
  let pos1 := if c.x = 4 ∧ c.y = pos then 9 else pos
  if c.timer = 0 then
    let c1 := { c with timer := (c.speed.natAbs : Int) }
    let c2 := if c.speed > 0 then { c1 with x := c1.x + 1 } else { c1 with x := 9 }
    let c3 := if c2.x > 9 then { c2 with x := 0 } else c2
    let pos2 := if c3.x = 4 ∧ c3.y = pos1 then 9 else pos1
    (c3, pos2)
  else ({ c with timer := c.timer - 1 }, pos1)

/-- The per-car loop, in row order. -/
def carLoop : List Car → Int → List Car × Int
  | [], pos => ([], pos)
  | c :: cs, pos =>
    let (c1, pos1) := carStep c pos
    let (cs1, pos2) := carLoop cs pos1
    (c1 :: cs1, pos2)

/-- The chicken move for actions 'u' and 'd', gated by `moveTimer == 0`. -/
def resolveChicken (action : Char) (f : Game) : Game :=
  if action = 'u' ∧ f.moveTimer = 0 then
    { f with moveTimer := 3,
             position := if 0 > f.position - 1 then 0 else f.position - 1 }
  else if action = 'd' ∧ f.moveTimer = 0 then
    { f with moveTimer := 3,
             position := if 9 < f.position then 9 else f.position + 1 }
  else f

/-- The win condition: on row 0 the reward is 1, car speeds are
re-randomized and the chicken returns to row 9. -/
def winCheck (f : Game) : Int × Game :=
  if f.position = 0 then
    (1, { randomizeCars false f with position := 9 })
  else (0, f)

/-- Apply the car loop to the state. -/
def updateCars (f : Game) : Game :=
  let (cars, pos) := carLoop f.cars f.position
  { f with cars := cars, position := pos }

/-- The `// Update various timers` tail of `Act`. -/
def tickTimers (f : Game) : Game :=
  { f with moveTimer := if f.moveTimer > 0 then f.moveTimer - 1 else f.moveTimer,
           terminateTimer := f.terminateTimer - 1,
           terminal := if f.terminateTimer - 1 < 0 then true else f.terminal }

/-- Freeway `Act`.  Unlike the other games the terminal check precedes
action validation, and the validation only rejects `a >= 6`: a negative
action reaches `f.actionMap[a]`, which in Go is an index-out-of-range
runtime panic that terminates the program — embedded as `none`. -/
def act (a : Int) (f : Game) : Option (StepResult Game) :=
  if f.terminal then some ⟨0, f.terminal, none, f⟩
  else if a ≥ 6 then some ⟨-1, false, some .invalidAction, f⟩
  else if a < 0 then none
  else
    let f1 := resolveChicken (actionMap.getD a.toNat 'n') f
    let (reward, f2) := winCheck f1
    let f3 := tickTimers (updateCars f2)
    some ⟨reward, f3.terminal, none, f3⟩

/-- The state after one `Act` (undefined draws keep the state on a panic;
only used where `act` is `some`). -/
def step (a : Int) (f : Game) : Game :=
  ((act a f).map StepResult.state).getD f

/-- Run a sequence of `Act` calls. -/
def runActs : List Int → Game → Game
  | [], f => f
  | a :: as, f => runActs as (step a f)

end GoAtar.Freeway

namespace GoAtar.Freeway

theorem randomizeCars_fields (init : Bool) (f : Game) :
    (randomizeCars init f).terminateTimer = f.terminateTimer ∧
    (randomizeCars init f).terminal = f.terminal ∧
    (randomizeCars init f).moveTimer = f.moveTimer := by
  unfold randomizeCars
  rcases h1 : drawN 8 2 f.rng with ⟨ds, r1⟩
  simp only [h1]
  rcases h2 : drawN 8 4 r1 with ⟨ss, r2⟩
  simp only [h2]
  split_ifs <;> exact ⟨rfl, rfl, rfl⟩

theorem resolveChicken_fields (action : Char) (f : Game) :
    (resolveChicken action f).terminateTimer = f.terminateTimer ∧
    (resolveChicken action f).terminal = f.terminal := by
  unfold resolveChicken
  split_ifs <;> exact ⟨rfl, rfl⟩

theorem winCheck_fields (f : Game) :
    (winCheck f).2.terminateTimer = f.terminateTimer ∧
    (winCheck f).2.terminal = f.terminal := by
  unfold winCheck
  split_ifs with h
  · exact ⟨(randomizeCars_fields false f).1, (randomizeCars_fields false f).2.1⟩
  · exact ⟨rfl, rfl⟩

theorem updateCars_fields (f : Game) :
    (updateCars f).terminateTimer = f.terminateTimer ∧
    (updateCars f).terminal = f.terminal := by
  unfold updateCars
  rcases h : carLoop f.cars f.position with ⟨cars, pos⟩
  simp only [h]
  exact ⟨trivial, trivial⟩

theorem act_nonterminal_eq (a : Int) (f : Game) (hterm : f.terminal = false)
    (h0 : 0 ≤ a) (h6 : a < 6) :
    act a f =
      some ⟨(winCheck (resolveChicken (actionMap.getD a.toNat 'n') f)).1,
            (tickTimers (updateCars
              (winCheck (resolveChicken (actionMap.getD a.toNat 'n') f)).2)).terminal,
            none,
            tickTimers (updateCars
              (winCheck (resolveChicken (actionMap.getD a.toNat 'n') f)).2)⟩ := by
  unfold act
  split_ifs with h1 h2 h3
  · rw [hterm] at h1
    cases h1
  · omega
  · omega
  · rcases h : winCheck (resolveChicken (actionMap.getD a.toNat 'n') f) with ⟨r, f2⟩
    simp only [h]

theorem step_timer (a : Int) (f : Game) (hterm : f.terminal = false)
    (h0 : 0 ≤ a) (h6 : a < 6) :
    (step a f).terminateTimer = f.terminateTimer - 1 ∧
    ((step a f).terminal = if f.terminateTimer - 1 < 0 then true else false) := by
  have h := act_nonterminal_eq a f hterm h0 h6
  unfold step
  rw [h]
  dsimp only [Option.map, Option.getD]
  have hrc := resolveChicken_fields (actionMap.getD a.toNat 'n') f
  have hw := winCheck_fields (resolveChicken (actionMap.getD a.toNat 'n') f)
  have hu := updateCars_fields
    (winCheck (resolveChicken (actionMap.getD a.toNat 'n') f)).2
  unfold tickTimers
  dsimp only
  rw [hu.1, hu.2, hw.1, hw.2, hrc.1, hrc.2, hterm]
  exact ⟨rfl, rfl⟩

theorem act_terminal_matches_step (a : Int) (f : Game) (hterm : f.terminal = false)
    (h0 : 0 ≤ a) (h6 : a < 6) :
    (act a f).map StepResult.terminal = some (step a f).terminal := by
  have h := act_nonterminal_eq a f hterm h0 h6
  unfold step
  rw [h]
  rfl

theorem runActs_timer (as : List Int) :
    ∀ f : Game, f.terminal = false →
    (∀ a ∈ as, 0 ≤ a ∧ a < 6) →
    ((as.length : Int) ≤ f.terminateTimer + 1) →
    0 ≤ f.terminateTimer →
    (runActs as f).terminateTimer = f.terminateTimer - as.length ∧
    ((runActs as f).terminal =
      if f.terminateTimer - as.length < 0 then true else false) := by
  induction as with
  | nil =>
    intro f hterm _ _ hpos
    simp only [runActs, List.length_nil, Nat.cast_zero, Int.sub_zero]
    refine ⟨trivial, ?_⟩
    rw [if_neg (by omega)]
    exact hterm
  | cons a as ih =>
    intro f hterm hv hlen hpos
    have hlc : (((a :: as).length : Nat) : Int) = (as.length : Int) + 1 := by
      push_cast [List.length_cons]
      ring
    rw [hlc] at hlen ⊢
    have hva := hv a (List.mem_cons_self a as)
    have hst := step_timer a f hterm hva.1 hva.2
    simp only [runActs]
    by_cases htt : f.terminateTimer - 1 < 0
    · have hlen0 : as.length = 0 := by omega
      rcases List.length_eq_zero.mp hlen0 with rfl
      simp only [runActs, List.length_nil, Nat.cast_zero]
      constructor
      · rw [hst.1]
        ring
      · rw [hst.2, if_pos htt, if_pos (by omega)]
    · have hterm1 : (step a f).terminal = false := by
        rw [hst.2, if_neg htt]
      have hI := ih (step a f) hterm1 (fun x hx => hv x (List.mem_cons_of_mem a hx))
        (by rw [hst.1]; omega) (by rw [hst.1]; omega)
      constructor
      · rw [hI.1, hst.1]
        ring
      · rw [hI.2, hst.1]
        have hiff : (f.terminateTimer - 1 - (as.length : Int) < 0) ↔
            (f.terminateTimer - ((as.length : Int) + 1) < 0) := by omega
        simp only [hiff]

/-- The Freeway start state used for the C4 counterexample (the all-zero
draw stream gives every car direction +1 and speed 1). -/
def c4Start : Game := Freeway.reset []

theorem c4Start_fields : c4Start.terminal = false ∧ c4Start.terminateTimer = 2500 :=
  ⟨rfl, rfl⟩

/-- C4 counterexample: the claim says `Act` returns `terminal = true` on
step 2500.  Running 2499 no-op steps from `Reset` and calling `Act` a
2500th time actually returns `terminal = false`: the timer starts at 2500,
is decremented once per step, and termination fires only when it becomes
negative — on step 2501, not 2500. -/
theorem C4_cex_step_2500_not_terminal :
    (act 0 (runActs (List.replicate 2499 0) c4Start)).map StepResult.terminal =
      some false := by
  have hv : ∀ a ∈ List.replicate 2499 (0 : Int), 0 ≤ a ∧ a < 6 := by
    intro a ha
    rw [List.eq_of_mem_replicate ha]
    omega
  have hr := runActs_timer (List.replicate 2499 0) c4Start rfl hv
    (by rw [List.length_replicate, c4Start_fields.2]; norm_num)
    (by rw [c4Start_fields.2]; norm_num)
  simp only [List.length_replicate, c4Start_fields.2] at hr
  have hterm : (runActs (List.replicate 2499 0) c4Start).terminal = false := by
    rw [hr.2]
    norm_num
  have hact := act_terminal_matches_step 0 _ hterm (by omega) (by omega)
  rw [hact]
  have hst := step_timer 0 _ hterm (by omega) (by omega)
  rw [hst.2, hr.1]
  norm_num

/-- C4 amended: starting from `Reset`, for any sequence of valid actions
the episode is non-terminal through step 2500 and terminates exactly on
step 2501 — one step later than the claim's frame budget of 2500 —
regardless of actions, rewards, or collisions. -/
theorem C4_freeway_fixed_budget (r : Rng) (as : List Int)
    (hv : ∀ a ∈ as, 0 ≤ a ∧ a < 6) :
    (as.length ≤ 2500 → (runActs as (Freeway.reset r)).terminal = false) ∧
    (as.length = 2501 → (runActs as (Freeway.reset r)).terminal = true) := by
  have h0 : (Freeway.reset r).terminal = false := rfl
  have h1 : (Freeway.reset r).terminateTimer = 2500 := rfl
  constructor
  · intro hlen
    have hr := runActs_timer as (Freeway.reset r) h0 hv
      (by rw [h1]; exact_mod_cast by omega) (by rw [h1]; omega)
    rw [hr.2, h1, if_neg (by omega)]
  · intro hlen
    have hr := runActs_timer as (Freeway.reset r) h0 hv
      (by rw [h1, hlen]; norm_num) (by rw [h1]; omega)
    rw [hr.2, h1, hlen, if_pos (by norm_num)]

/-- Witness for C4 at the all-zero draw stream and a single no-op step. -/
theorem C4_freeway_fixed_budget_witness :
    (runActs [0] (Freeway.reset [])).terminal = false :=
  (C4_freeway_fixed_budget [] [0]
    (fun a ha => by rw [List.mem_singleton] at ha; omega)).1 (by norm_num)

set_option maxRecDepth 4000 in
/-- C2: every other game validates `a < 0` and returns the sentinel `-1`
with an error, but the Freeway `Act` only rejects `a >= len(actionMap)`,
so `act(-1)` reaches `f.actionMap[a]` — an index-out-of-range runtime
panic that terminates the calling program (embedded as `none`).  For
contrast, `act(6)` on the same state returns the sentinel as documented. -/
theorem C2_freeway_act_neg_one_panics :
    (Freeway.reset []).terminal = false ∧
    act (-1) (Freeway.reset []) = none ∧
    act 6 (Freeway.reset []) =
      some ⟨-1, false, some GErr.invalidAction, Freeway.reset []⟩ := by
  decide

/-- A Freeway mid-episode state: the car in row 1 moves left (speed -3)
from column 5 with its countdown at zero; the chicken sits at the bottom. -/
def c7State : Game :=
  { cars := ⟨5, 1, 0, -3⟩ :: (List.range 7).map (fun i => ⟨0, Int.ofNat i + 2, 5, 1⟩),
    position := 9, moveTimer := 3, terminateTimer := 1000, terminal := false,
    rng := [] }

/-- C7: the claim says a left-moving car at column `c > 0` moves to
column `c-1` when its countdown expires.  The source's negative-speed
branch instead writes the constant 9: the car at column 5 teleports to
the right edge (column 9) rather than advancing one cell to column 4. -/
theorem C7_cex_left_car_jumps_to_right_edge :
    c7State.cars.headD ⟨0, 0, 0, 0⟩ = ⟨5, 1, 0, -3⟩ ∧
    (step 0 c7State).cars.headD ⟨0, 0, 0, 0⟩ = ⟨9, 1, 3, -3⟩ := by
  decide

end GoAtar.Freeway

namespace GoAtar.SpaceInvaders

/-
Embedding of src/internal/game/spaceinvaders/SpaceInvaders.go and the
player helper in Helpers.go.  The three 10×10 `*mat.Dense` masks
(friendly bullets, enemy bullets, aliens) are embedded as `Grid`s; the
cached observation is not part of the dynamics and is omitted.  `Act`
consumes no randomness.
-/

/-- The `player` struct of the spaceinvaders package. -/
structure Player where
  position : Int
  shotTimer : Int
  deriving DecidableEq, Repr

/-- The mutable fields of the Go `SpaceInvaders` struct. -/
structure Game where
  ramping : Bool
  rampIndex : Int
  terminal : Bool
  agent : Player
  fBullets : Grid
  eBullets : Grid
  aliens : Grid
  alienDir : Int
  enemyMoveInterval : Int
  alienMoveTimer : Int
  alienShotTimer : Int
  deriving DecidableEq, Repr

/-- The alien fill row: columns 2–7 occupied (`for i := 2; i < cols-2; i++`). -/
def alienRow : List Bool :=
  (List.range 10).map fun i => decide (2 ≤ i ∧ i < 8)

/-- A fresh alien wave: a zero grid with rows 0–3 set to `alienRow`. -/
def newWave : Grid :=
  upTo 4 (fun i g => gridSetRow g (Int.ofNat i) alienRow) zeroGrid

/-- Stable insertion into a list sorted by `key` (strictly-less
comparisons, as in the Go `sort.Slice` call). -/
def insertBy (key : Nat → Nat) (x : Nat) : List Nat → List Nat
  | [] => [x]
  | y :: ys => if key x < key y then x :: y :: ys else y :: insertBy key x ys

/-- Insertion sort by `key`.  Go's `sort.Slice` is an unstable sort, so
tie order between equidistant columns is unspecified there; this stable
sort realizes one admissible order, and no claim depends on the ties. -/
def sortBy (key : Nat → Nat) : List Nat → List Nat
  | [] => []
  | x :: xs => insertBy key x (sortBy key xs)

/-- The column search order of `nearestAlien`: columns sorted by
`|i - pos|`. -/
def searchOrder (pos : Int) : List Nat :=
  sortBy (fun i => (Int.ofNat i - pos).natAbs) (List.range 10)

/-- Row indices with a set cell in column `c` (`game.Where` on a column). -/
def whereNonZeroCol (g : Grid) (c : Nat) : List Int :=
  ((List.range 10).filter fun r => (g.getD r []).getD c false).map Int.ofNat

/-- Go `game.MaxInt` over a list; the empty case cannot occur at the one
call site (it is guarded by a positive column sum). -/
def maxIntList : List Int → Int
  | [] => -1
  | x :: xs => xs.foldl (fun m v => if v > m then v else m) x

/-- `nearestAlien`: the first column in the search order with any alien;
returns (largest occupied row in that column, column), or (-1, -1). -/
def nearestAlien (g : Grid) (pos : Int) : Int × Int :=
  match (searchOrder pos).find? (fun i => colSumPos g (Int.ofNat i)) with
  | some i => (maxIntList (whereNonZeroCol g i), Int.ofNat i)
  | none => (-1, -1)

/-- The `// Resolve player action` switch: fire (gated by the shot timer),
move left (clamped at 0), move right (clamped at 9). -/
def resolveAction (action : Char) (s : Game) : Game :=
  if action = 'f' then
    if s.agent.shotTimer ≤ 0 then
      { s with fBullets := gridSet s.fBullets 9 s.agent.position true,
               agent := { s.agent with shotTimer := 5 } }
    else s
  else if action = 'l' then
    { s with agent := { s.agent with position := maxInt 0 (s.agent.position - 1) } }
  else if action = 'r' then
    { s with agent := { s.agent with position := minInt 9 (s.agent.position + 1) } }
  else s

/-- Friendly bullets roll up (bottom row cleared), enemy bullets roll
down (top row cleared), and an enemy bullet in the player's cell ends the
episode. -/
def updateBullets (s : Game) : Game :=
  let s := { s with fBullets := gridSetRow (rollRowsUp s.fBullets) 9 zeroRow,
                    eBullets := gridSetRow (rollRowsDown s.eBullets) 0 zeroRow }
  if gridAt s.eBullets 9 s.agent.position then { s with terminal := true } else s

/-- The `// Update aliens` block.  When the move timer has expired it is
reset to `MinInt(enemyMoveInterval, CountNonZero(aliens))` — and
`CountNonZero` counts the ZERO cells of the mask — then the block either
drops one row and reverses at a wall or rolls sideways, with terminal
checks against the player's cell before and after. -/
def updateAliens (s : Game) : Game :=
  let s := if gridAt s.aliens 9 s.agent.position then { s with terminal := true } else s
  if s.alienMoveTimer = 0 then
    let s := { s with alienMoveTimer := minInt s.enemyMoveInterval (countNonZero s.aliens) }
    let s :=
      if (colSumPos s.aliens 0 ∧ s.alienDir < 0) ∨
         (colSumPos s.aliens 9 ∧ s.alienDir > 0) then
        let s := { s with alienDir := -s.alienDir }
        let s := if rowSumPos s.aliens 9 then { s with terminal := true } else s
        { s with aliens := rollRowsDown s.aliens }
      else
        { s with aliens :=
            if s.alienDir < 0 then rollColsLeft s.aliens else rollColsRight s.aliens }
    if gridAt s.aliens 9 s.agent.position then { s with terminal := true } else s
  else s

/-- The alien shot block: on an expired shot timer, the nearest alien
fires (only when both coordinates are positive). -/
def alienShoot (s : Game) : Game :=
  if s.alienShotTimer = 0 then
    let s := { s with alienShotTimer := 10 }
    let (x, y) := nearestAlien s.aliens s.agent.position
    if x > 0 ∧ y > 0 then { s with eBullets := gridSet s.eBullets x y true } else s
  else s

/-- The `// Find where the aliens were killed` double loop: each cell
occupied by both a friendly bullet and an alien clears both and adds one
reward. -/
def killScan (s : Game) : Game × Int :=
  upTo 10 (fun r sr =>
    upTo 10 (fun c sr =>
      let (s, reward) := sr
      if gridAt s.fBullets (Int.ofNat r) (Int.ofNat c) ∧
         gridAt s.aliens (Int.ofNat r) (Int.ofNat c) then
        ({ s with aliens := gridSet s.aliens (Int.ofNat r) (Int.ofNat c) false,
                  fBullets := gridSet s.fBullets (Int.ofNat r) (Int.ofNat c) false },
         reward + 1)
      else sr) sr) (s, 0)

/-- The `// Update timers` block. -/
def tickTimers (s : Game) : Game :=
  let agent :=
    if ¬ s.agent.shotTimer ≤ 0 then
      if s.agent.shotTimer > 0 then { s.agent with shotTimer := s.agent.shotTimer - 1 }
      else s.agent
    else s.agent
  { s with agent := agent,
           alienMoveTimer := s.alienMoveTimer - 1,
           alienShotTimer := s.alienShotTimer - 1 }

/-- The end-of-step wave reset: when `CountNonZero` (which counts zero
cells) returns 0, the difficulty may ramp and a fresh wave is placed. -/
def waveReset (s : Game) : Game :=
  if countNonZero s.aliens = 0 then
    let s :=
      if s.enemyMoveInterval > 0 ∧ s.ramping then
        { s with enemyMoveInterval := s.enemyMoveInterval - 1,
                 rampIndex := s.rampIndex + 1 }
      else s
    { s with aliens := newWave }
  else s

/-- SpaceInvaders `Act`. -/
def act (a : Int) (s : Game) : StepResult Game :=
  if a ≥ 6 ∨ a < 0 then ⟨-1, false, some .invalidAction, s⟩
  else if s.terminal then ⟨0, s.terminal, none, s⟩
  else
    let s1 := resolveAction (actionMap.getD a.toNat 'n') s
    let s2 := updateAliens (updateBullets s1)
    let s3 := alienShoot s2
    let (s4, reward) := killScan s3
    let s5 := waveReset (tickTimers s4)
    ⟨reward, s5.terminal, none, s5⟩

/-- SpaceInvaders `Reset` (the one draw positions the cannon). -/
def reset (ramping : Bool) (r : Rng) : Game :=
  let (start, _) := rngIntn 2 r
  { ramping := ramping, rampIndex := 0, terminal := false,
    agent := ⟨Int.ofNat start + 5, 0⟩,
    fBullets := zeroGrid, eBullets := zeroGrid, aliens := newWave,
    alienDir := -1, enemyMoveInterval := 12, alienMoveTimer := 12,
    alienShotTimer := 10 }

/-- A mid-episode SpaceInvaders state with exactly one alien left (at row
0, column 5) and the alien move timer expired. -/
def c5State : Game :=
  { ramping := false, rampIndex := 0, terminal := false,
    agent := ⟨5, 0⟩, fBullets := zeroGrid, eBullets := zeroGrid,
    aliens := gridSet zeroGrid 0 5 true, alienDir := -1,
    enemyMoveInterval := 12, alienMoveTimer := 0, alienShotTimer := 3 }

set_option maxRecDepth 8000 in
/-- C5: the claim says an expired alien move timer is reset to
`min(configured interval, number of LIVE aliens)` — here `min(12, 1) = 1`,
so the post-step timer would be 0.  But `game.CountNonZero` counts the
cells EQUAL to zero (despite its name and doc comment), so the code
computes `min(12, 99) = 12` and the post-step timer is 11: alien speed
does not increase as aliens are destroyed. -/
theorem C5_alien_timer_counts_zeros :
    (c5State.aliens.map fun row => (row.filter id).length).sum = 1 ∧
    countNonZero c5State.aliens = 99 ∧
    c5State.alienMoveTimer = 0 ∧
    (act 0 c5State).state.alienMoveTimer = 11 := by
  decide

end GoAtar.SpaceInvaders

namespace GoAtar.SeaQuest

/-
Embedding of src/internal/game/seaquest/SeaQuest.go and Helpers.go.
The Go pointer types (`*bullet`, `*swimmer`, `*submarine`, `*player`,
where player embeds submarine embeds swimmer) are flattened into records;
`direction` is the ±1 integer of the helpers.  Entity slices are lists,
iterated from the last index down as in the source, with in-place pointer
mutation embedded as `List.set` and removal as `List.eraseIdx`.
-/

/-- The `bullet` helper struct. -/
structure Bullet where
  x : Int
  y : Int
  dir : Int
  deriving DecidableEq, Repr

/-- The `swimmer` helper struct (enemy fish and divers). -/
structure Swimmer where
  x : Int
  y : Int
  dir : Int
  moveTimer : Int
  deriving DecidableEq, Repr

/-- The `submarine` helper struct (a swimmer plus a shot timer). -/
structure Submarine where
  x : Int
  y : Int
  dir : Int
  moveTimer : Int
  shotTimer : Int
  deriving DecidableEq, Repr

/-- The `player` helper struct (a submarine plus oxygen and divers). -/
structure Player where
  x : Int
  y : Int
  dir : Int
  moveTimer : Int
  shotTimer : Int
  oxygen : Int
  diverCount : Int
  deriving DecidableEq, Repr

/-- Player moves: left/right clamp into [0, 9] and set the facing
direction; up clamps at 0, down clamps at rows-2 = 8. -/
def Player.moveLeft (p : Player) : Player :=
  { p with x := maxInt 0 (p.x - 1), dir := -1 }

def Player.moveRight (p : Player) : Player :=
  { p with x := minInt 9 (p.x + 1), dir := 1 }

def Player.moveUp (p : Player) : Player :=
  { p with y := maxInt 0 (p.y - 1) }

def Player.moveDown (p : Player) : Player :=
  { p with y := minInt 8 (p.y + 1) }

/-- The mutable fields of the Go `SeaQuest` struct. -/
structure Game where
  ramping : Bool
  agent : Player
  fBullets : List Bullet
  moveSpeed : Int
  shotTimer : Int
  atSurface : Bool
  eBullets : List Bullet
  eFish : List Swimmer
  eSubs : List Submarine
  eSpawnSpeed : Int
  eSpawnTimer : Int
  divers : List Swimmer
  dSpawnTimer : Int
  rampIndex : Int
  terminal : Bool
  rng : Rng
  deriving DecidableEq, Repr

/-- SeaQuest `Reset`. -/
def reset (ramping : Bool) (r : Rng) : Game :=
  { ramping := ramping,
    agent := { x := 5, y := 0, dir := -1, moveTimer := 5, shotTimer := 0,
               oxygen := 200, diverCount := 0 },
    fBullets := [], eBullets := [], eFish := [], eSubs := [], divers := [],
    eSpawnSpeed := 20, eSpawnTimer := 20, dSpawnTimer := 30,
    moveSpeed := 5, rampIndex := 0, shotTimer := 0, atSurface := true,
    terminal := false, rng := r }

/-- `spawnEnemy`: draw side, kind and row; drop the spawn when the row
holds a fish or submarine whose `direction()` (±1) differs from `lr`
(0 or 1) — note the source compares the ±1 direction against the 0/1
draw, so for `lr = 0` every occupant of the row blocks the spawn. -/
def spawnEnemy (s : Game) : Game :=
  let lr := (rngIntn 2 s.rng).1
  let r1 := (rngIntn 2 s.rng).2
  let isSub := (rngIntn 3 r1).1 = 0
  let r2 := (rngIntn 3 r1).2
  let x : Int := if lr = 1 then 0 else 9
  let y : Int := Int.ofNat (rngIntn 8 r2).1 + 1
  let r3 := (rngIntn 8 r2).2
  let s := { s with rng := r3 }
  if s.eFish.any fun e => e.y == y && e.dir != (lr : Int) then s
  else if s.eSubs.any fun e => e.y == y && e.dir != (lr : Int) then s
  else
    let dir : Int := if lr = 1 then 1 else -1
    if isSub then
      { s with eSubs := s.eSubs ++
          [{ x := x, y := y, dir := dir, moveTimer := s.moveSpeed, shotTimer := 10 }] }
    else
      { s with eFish := s.eFish ++
          [{ x := x, y := y, dir := dir, moveTimer := s.moveSpeed }] }

/-- `spawnDiver`: draw side and row; divers always spawn. -/
def spawnDiver (s : Game) : Game :=
  let lr := (rngIntn 2 s.rng).1
  let r1 := (rngIntn 2 s.rng).2
  let x : Int := if lr = 1 then 0 else 9
  let y : Int := Int.ofNat (rngIntn 8 r1).1 + 1
  let r2 := (rngIntn 8 r1).2
  let dir : Int := if lr = 1 then 1 else -1
  { s with rng := r2,
           divers := s.divers ++ [{ x := x, y := y, dir := dir, moveTimer := 5 }] }

/-- `updateFriendlyBullet`: move the bullet; remove it when `x < 0` or
`y > rows-1` (the source tests the CONSTANT y rather than x on the right
side, so right-moving bullets are never removed); otherwise the first
fish, then the first submarine, at the bullet's cell is destroyed for +1. -/
def updateFriendlyBullet (i : Nat) (sr : Game × Int) : Game × Int :=
  let s := sr.1
  let reward := sr.2
  let b0 := s.fBullets.getD i ⟨0, 0, 0⟩
  let b := { b0 with x := b0.x + b0.dir }
  if b.x < 0 ∨ b.y > 9 then ({ s with fBullets := s.fBullets.eraseIdx i }, reward)
  else
    let s := { s with fBullets := s.fBullets.set i b }
    match s.eFish.findIdx? fun f => b.x == f.x && b.y == f.y with
    | some j => ({ s with eFish := s.eFish.eraseIdx j }, reward + 1)
    | none =>
      match s.eSubs.findIdx? fun t => b.x == t.x && b.y == t.y with
      | some j => ({ s with eSubs := s.eSubs.eraseIdx j }, reward + 1)
      | none => (s, reward)

/-- `updateDiver`: pick up a diver in the player's cell (when fewer than
6 aboard); otherwise move on an expired timer, removing the diver when it
leaves through a side, or picking it up if it moved into the player. -/
def updateDiver (i : Nat) (s : Game) : Game :=
  let d0 := s.divers.getD i ⟨0, 0, 0, 0⟩
  if d0.x = s.agent.x ∧ d0.y = s.agent.y ∧ s.agent.diverCount < 6 then
    { s with divers := s.divers.eraseIdx i,
             agent := { s.agent with diverCount := s.agent.diverCount + 1 } }
  else if d0.moveTimer = 0 then
    let d := { d0 with moveTimer := 5, x := d0.x + d0.dir }
    if d.x < 0 ∨ d.x > 9 then { s with divers := s.divers.eraseIdx i }
    else if d.x = s.agent.x ∧ d.y = s.agent.y ∧ s.agent.diverCount < 6 then
      { s with divers := s.divers.eraseIdx i,
               agent := { s.agent with diverCount := s.agent.diverCount + 1 } }
    else { s with divers := s.divers.set i d }
  else { s with divers := s.divers.set i { d0 with moveTimer := d0.moveTimer - 1 } }

/-- The move phase of `updateEnemySubmarine`: on an expired timer the
submarine advances one cell and is removed at a side, collides with the
player, or is destroyed by a friendly bullet for +1; otherwise the timer
just counts down.  Returns (removed-from-slice?, the mutated local
pointer, the updated game, the updated reward). -/
def subMovePhase (i : Nat) (sub0 : Submarine) (s : Game) (reward : Int) :
    Bool × Submarine × Game × Int :=
  if sub0.moveTimer = 0 then
    let sub1 := { sub0 with moveTimer := s.moveSpeed, x := sub0.x + sub0.dir }
    if sub1.x < 0 ∨ sub1.x > 9 then
      (true, sub1, { s with eSubs := s.eSubs.eraseIdx i }, reward)
    else if sub1.x = s.agent.x ∧ sub1.y = s.agent.y then
      (false, sub1, { s with eSubs := s.eSubs.set i sub1, terminal := true }, reward)
    else
      match s.fBullets.findIdx? fun b => sub1.x == b.x && sub1.y == b.y with
      | some j =>
        (true, sub1,
         { s with eSubs := s.eSubs.eraseIdx i, fBullets := s.fBullets.eraseIdx j },
         reward + 1)
      | none => (false, sub1, { s with eSubs := s.eSubs.set i sub1 }, reward)
  else
    (false, { sub0 with moveTimer := sub0.moveTimer - 1 },
     { s with eSubs := s.eSubs.set i { sub0 with moveTimer := sub0.moveTimer - 1 } },
     reward)

/-- The shot phase of `updateEnemySubmarine`: on an expired shot timer
the (local) submarine fires a bullet from its cell; otherwise the shot
timer counts down. -/
def subShotPhase (sub1 : Submarine) (s : Game) : Submarine × Game :=
  if sub1.shotTimer = 0 then
    ({ sub1 with shotTimer := 10 },
     { s with eBullets := s.eBullets ++
         [{ x := sub1.x, y := sub1.y, dir := if sub1.dir = 1 then 1 else -1 }] })
  else ({ sub1 with shotTimer := sub1.shotTimer - 1 }, s)

/-- `updateEnemySubmarine`: collision check, move phase, shot phase — the
shot phase acts on the local pointer in the source, so a submarine
removed this step can still leave a bullet behind; a surviving submarine
is written back into its slot. -/
def updateEnemySubmarine (i : Nat) (sr : Game × Int) : Game × Int :=
  let sub0 := sr.1.eSubs.getD i ⟨0, 0, 0, 0, 0⟩
  let s :=
    if sub0.x = sr.1.agent.x ∧ sub0.y = sr.1.agent.y then
      { sr.1 with terminal := true }
    else sr.1
  match subMovePhase i sub0 s sr.2 with
  | (removed, sub1, s1, reward1) =>
    match subShotPhase sub1 s1 with
    | (sub2, s2) =>
      if removed then (s2, reward1)
      else ({ s2 with eSubs := s2.eSubs.set i sub2 }, reward1)

/-- `updateEnemyBullet`: collision check, move, removal at `x < 0` or
`y > rows-1` (again y, not x, on the right side), post-move collision. -/
def updateEnemyBullet (i : Nat) (s : Game) : Game :=
  let b0 := s.eBullets.getD i ⟨0, 0, 0⟩
  let s := if b0.x = s.agent.x ∧ b0.y = s.agent.y then { s with terminal := true } else s
  let b := { b0 with x := b0.x + b0.dir }
  if b.x < 0 ∨ b.y > 9 then { s with eBullets := s.eBullets.eraseIdx i }
  else
    let s := { s with eBullets := s.eBullets.set i b }
    if b.x = s.agent.x ∧ b.y = s.agent.y then { s with terminal := true } else s

/-- `updateEnemyFish`: like the submarine without the shot phase; the
removal test is `x < 0 || y > rows-1`, so right-moving fish are never
removed at the right edge. -/
def updateEnemyFish (i : Nat) (sr : Game × Int) : Game × Int :=
  let s := sr.1
  let reward := sr.2
  let f0 := s.eFish.getD i ⟨0, 0, 0, 0⟩
  let s := if f0.x = s.agent.x ∧ f0.y = s.agent.y then { s with terminal := true } else s
  if f0.moveTimer = 0 then
    let f1 := { f0 with moveTimer := s.moveSpeed, x := f0.x + f0.dir }
    if f1.x < 0 ∨ f1.y > 9 then ({ s with eFish := s.eFish.eraseIdx i }, reward)
    else if f1.x = s.agent.x ∧ f1.y = s.agent.y then
      ({ s with eFish := s.eFish.set i f1, terminal := true }, reward)
    else
      match s.fBullets.findIdx? fun b => f1.x == b.x && f1.y == b.y with
      | some j =>
        ({ s with eFish := s.eFish.eraseIdx i, fBullets := s.fBullets.eraseIdx j },
         reward + 1)
      | none => ({ s with eFish := s.eFish.set i f1 }, reward)
  else ({ s with eFish := s.eFish.set i { f0 with moveTimer := f0.moveTimer - 1 } }, reward)

/-- `surface`: with 6 divers aboard, clear them and award
`oxygen * 10 / maxOxygen` (Go integer division); otherwise refill oxygen,
consume a diver, and (when ramping) advance the difficulty. -/
def surface (s : Game) : Game × Int :=
  let s := { s with atSurface := true }
  if s.agent.diverCount = 6 then
    ({ s with agent := { s.agent with diverCount := 0 } },
     Int.tdiv (s.agent.oxygen * 10) 200)
  else
    let a1 : Player :=
      { s.agent with oxygen := 200, diverCount := s.agent.diverCount - 1 }
    let s : Game := { s with agent := a1 }
    if s.ramping ∧ (s.eSpawnSpeed > 1 ∨ s.moveSpeed > 2) then
      let s := if s.moveSpeed > 2 ∧ s.rampIndex % 2 = 1 then
          { s with moveSpeed := s.moveSpeed - 1 } else s
      let s := if s.eSpawnSpeed > 1 then { s with eSpawnSpeed := s.eSpawnSpeed - 1 } else s
      ({ s with rampIndex := s.rampIndex + 1 }, 0)
    else (s, 0)

/-- The two spawn blocks at the top of `Act`. -/
def spawnPhase (s : Game) : Game :=
  let s :=
    if s.eSpawnTimer = 0 then
      let s1 := spawnEnemy s
      { s1 with eSpawnTimer := s1.eSpawnSpeed }
    else s
  if s.dSpawnTimer = 0 then
    let s1 := spawnDiver s
    { s1 with dSpawnTimer := 30 }
  else s

/-- The `// Resolve action` switch: fire appends a bullet at the player's
cell facing the player's direction; moves update the agent. -/
def actionPhase (action : Char) (s : Game) : Game :=
  if action = 'f' then
    if s.shotTimer = 0 then
      let nb : Bullet :=
        { x := s.agent.x, y := s.agent.y, dir := if s.agent.dir = 1 then 1 else -1 }
      { s with fBullets := s.fBullets ++ [nb], shotTimer := 5 }
    else s
  else if action = 'l' then { s with agent := s.agent.moveLeft }
  else if action = 'r' then { s with agent := s.agent.moveRight }
  else if action = 'u' then { s with agent := s.agent.moveUp }
  else if action = 'd' then { s with agent := s.agent.moveDown }
  else s

/-- The five entity update loops, each from its list's last index down. -/
def updatePhase (s : Game) : Game × Int :=
  let sr := downFrom s.fBullets.length updateFriendlyBullet (s, 0)
  let sr := (downFrom sr.1.divers.length updateDiver sr.1, sr.2)
  let sr := downFrom sr.1.eSubs.length updateEnemySubmarine sr
  let sr := (downFrom sr.1.eBullets.length updateEnemyBullet sr.1, sr.2)
  downFrom sr.1.eFish.length updateEnemyFish sr

/-- The `// Update timers` block. -/
def timerPhase (s : Game) : Game :=
  let s := if s.eSpawnTimer > 0 then { s with eSpawnTimer := s.eSpawnTimer - 1 } else s
  let s := if s.dSpawnTimer > 0 then { s with dSpawnTimer := s.dSpawnTimer - 1 } else s
  if s.shotTimer > 0 then { s with shotTimer := s.shotTimer - 1 } else s

/-- The oxygen/surfacing tail of `Act`: terminal is set when oxygen is
already NEGATIVE (checked before the decrement); then, below the surface,
oxygen falls by one; at the surface, surfacing with no divers is terminal
and otherwise `surface` runs. -/
def oxygenPhase (s : Game) : Game × Int :=
  let s := if s.agent.oxygen < 0 then { s with terminal := true } else s
  if s.agent.y > 0 then
    ({ s with agent := { s.agent with oxygen := s.agent.oxygen - 1 },
              atSurface := false }, 0)
  else if ¬ s.atSurface then
    if s.agent.diverCount = 0 then ({ s with terminal := true }, 0)
    else surface s
  else (s, 0)

/-- SeaQuest `Act`. -/
def act (a : Int) (s : Game) : StepResult Game :=
  if a ≥ 6 ∨ a < 0 then ⟨-1, false, some .invalidAction, s⟩
  else if s.terminal then ⟨0, s.terminal, none, s⟩
  else
    let s1 := actionPhase (actionMap.getD a.toNat 'n') (spawnPhase s)
    let sr := updatePhase s1
    let s3 := timerPhase sr.1
    let so := oxygenPhase s3
    ⟨sr.2 + so.2, so.1.terminal, none, so.1⟩

/-- Run a sequence of `Act` calls, keeping the state component. -/
def run (as : List Int) (s : Game) : Game :=
  as.foldl (fun t a => (act a t).state) s

end GoAtar.SeaQuest

namespace GoAtar

theorem downFrom_preserve {σ : Type} (P : σ → Prop) (step : Nat → σ → σ)
    (h : ∀ i t, P t → P (step i t)) :
    ∀ (n : Nat) (t : σ), P t → P (downFrom n step t) := by
  intro n
  induction n with
  | zero => exact fun t ht => ht
  | succ k ih => exact fun t ht => ih (step k t) (h k t ht)

end GoAtar

namespace GoAtar.SeaQuest

theorem spawnEnemy_agent (s : Game) : (spawnEnemy s).agent = s.agent := by
  unfold spawnEnemy
  dsimp only
  split_ifs <;> rfl

theorem spawnDiver_agent (s : Game) : (spawnDiver s).agent = s.agent := rfl

theorem spawnPhase_agent (s : Game) : (spawnPhase s).agent = s.agent := by
  unfold spawnPhase
  dsimp only
  repeat' split
  all_goals simp only [spawnEnemy_agent, spawnDiver_agent]

theorem updateFriendlyBullet_agent (i : Nat) (sr : Game × Int) :
    (updateFriendlyBullet i sr).1.agent = sr.1.agent := by
  unfold updateFriendlyBullet
  dsimp only
  split_ifs
  · rfl
  · split
    · rfl
    · split <;> rfl

theorem updateDiver_agent (i : Nat) (s : Game) :
    (updateDiver i s).agent.oxygen = s.agent.oxygen ∧
    (updateDiver i s).agent.y = s.agent.y := by
  unfold updateDiver
  dsimp only
  split_ifs <;> exact ⟨rfl, rfl⟩

theorem subMovePhase_agent (i : Nat) (sub0 : Submarine) (s : Game) (reward : Int) :
    (subMovePhase i sub0 s reward).2.2.1.agent = s.agent := by
  unfold subMovePhase
  dsimp only
  split_ifs <;> first | rfl | (split <;> rfl)

theorem subShotPhase_agent (sub1 : Submarine) (s : Game) :
    (subShotPhase sub1 s).2.agent = s.agent := by
  unfold subShotPhase
  split_ifs <;> rfl

theorem updateEnemySubmarine_agent (i : Nat) (sr : Game × Int) :
    (updateEnemySubmarine i sr).1.agent = sr.1.agent := by
  unfold updateEnemySubmarine
  dsimp only
  rcases hm : subMovePhase i (sr.1.eSubs.getD i ⟨0, 0, 0, 0, 0⟩)
      (if (sr.1.eSubs.getD i ⟨0, 0, 0, 0, 0⟩).x = sr.1.agent.x ∧
          (sr.1.eSubs.getD i ⟨0, 0, 0, 0, 0⟩).y = sr.1.agent.y then
        { sr.1 with terminal := true }
      else sr.1) sr.2 with ⟨removed, sub1, s1, reward1⟩
  have hs1 : s1.agent = sr.1.agent := by
    have h := subMovePhase_agent i (sr.1.eSubs.getD i ⟨0, 0, 0, 0, 0⟩)
      (if (sr.1.eSubs.getD i ⟨0, 0, 0, 0, 0⟩).x = sr.1.agent.x ∧
          (sr.1.eSubs.getD i ⟨0, 0, 0, 0, 0⟩).y = sr.1.agent.y then
        { sr.1 with terminal := true }
      else sr.1) sr.2
    rw [hm] at h
    dsimp only at h
    rw [h]
    split_ifs <;> rfl
  simp only [hm]
  rcases hsh : subShotPhase sub1 s1 with ⟨sub2, s2⟩
  have hs2 : s2.agent = s1.agent := by
    have h := subShotPhase_agent sub1 s1
    rw [hsh] at h
    exact h
  simp only [hsh]
  cases removed
  · simp only [Bool.false_eq_true, if_false]
    rw [← hs1, ← hs2]
  · simp only [if_true]
    rw [← hs1, ← hs2]

theorem updateEnemyBullet_agent (i : Nat) (s : Game) :
    (updateEnemyBullet i s).agent = s.agent := by
  unfold updateEnemyBullet
  dsimp only
  split_ifs <;> rfl

theorem updateEnemyFish_agent (i : Nat) (sr : Game × Int) :
    (updateEnemyFish i sr).1.agent = sr.1.agent := by
  unfold updateEnemyFish
  dsimp only
  split_ifs <;> first | rfl | (split <;> rfl)

theorem updatePhase_agent_oxy (s : Game) :
    (updatePhase s).1.agent.oxygen = s.agent.oxygen ∧
    (updatePhase s).1.agent.y = s.agent.y := by
  unfold updatePhase
  dsimp only
  apply downFrom_preserve
    (fun t : Game × Int => t.1.agent.oxygen = s.agent.oxygen ∧ t.1.agent.y = s.agent.y)
    updateEnemyFish
    (fun i t ht => by rw [show (updateEnemyFish i t).1.agent = t.1.agent from
      updateEnemyFish_agent i t]; exact ht)
  apply downFrom_preserve
    (fun g : Game => g.agent.oxygen = s.agent.oxygen ∧ g.agent.y = s.agent.y)
    updateEnemyBullet
    (fun i g hg => by rw [show (updateEnemyBullet i g).agent = g.agent from
      updateEnemyBullet_agent i g]; exact hg)
  apply downFrom_preserve
    (fun t : Game × Int => t.1.agent.oxygen = s.agent.oxygen ∧ t.1.agent.y = s.agent.y)
    updateEnemySubmarine
    (fun i t ht => by rw [show (updateEnemySubmarine i t).1.agent = t.1.agent from
      updateEnemySubmarine_agent i t]; exact ht)
  apply downFrom_preserve
    (fun g : Game => g.agent.oxygen = s.agent.oxygen ∧ g.agent.y = s.agent.y)
    updateDiver
    (fun i g hg => ⟨by rw [(updateDiver_agent i g).1]; exact hg.1,
                    by rw [(updateDiver_agent i g).2]; exact hg.2⟩)
  apply downFrom_preserve
    (fun t : Game × Int => t.1.agent.oxygen = s.agent.oxygen ∧ t.1.agent.y = s.agent.y)
    updateFriendlyBullet
    (fun i t ht => by rw [show (updateFriendlyBullet i t).1.agent = t.1.agent from
      updateFriendlyBullet_agent i t]; exact ht)
  exact ⟨rfl, rfl⟩

theorem actionPhase_agent_oxygen (c : Char) (s : Game) :
    (actionPhase c s).agent.oxygen = s.agent.oxygen := by
  unfold actionPhase
  dsimp only
  split_ifs <;> rfl

theorem timerPhase_agent (s : Game) : (timerPhase s).agent = s.agent := by
  unfold timerPhase
  dsimp only
  split_ifs <;> rfl

theorem surface_y (s : Game) : (surface s).1.agent.y = s.agent.y := by
  unfold surface
  dsimp only
  split_ifs <;> rfl

theorem surface_terminal (s : Game) : (surface s).1.terminal = s.terminal := by
  unfold surface
  dsimp only
  split_ifs <;> rfl

theorem oxygenPhase_y (s : Game) : (oxygenPhase s).1.agent.y = s.agent.y := by
  unfold oxygenPhase
  dsimp only
  split_ifs <;> first | rfl | (rw [surface_y])

theorem oxygenPhase_below (s : Game) (hy : s.agent.y > 0) :
    (oxygenPhase s).1.agent.oxygen = s.agent.oxygen - 1 := by
  unfold oxygenPhase
  dsimp only
  by_cases h1 : s.agent.oxygen < 0
  · rw [if_pos h1, if_pos (show ({s with terminal := true} : Game).agent.y > 0 from hy)]
  · rw [if_neg h1, if_pos hy]

theorem oxygenPhase_terminal (s : Game) (h : s.agent.oxygen < 0) :
    (oxygenPhase s).1.terminal = true := by
  unfold oxygenPhase
  dsimp only
  rw [if_pos h]
  by_cases hy : ({s with terminal := true} : Game).agent.y > 0
  · rw [if_pos hy]
  · rw [if_neg hy]
    by_cases hsf : ¬ ({s with terminal := true} : Game).atSurface = true
    · rw [if_pos hsf]
      by_cases hd : ({s with terminal := true} : Game).agent.diverCount = 0
      · rw [if_pos hd]
      · rw [if_neg hd, surface_terminal]
    · rw [if_neg hsf]

theorem act_nonterminal_shape (a : Int) (s : Game) (hterm : s.terminal = false)
    (h0 : 0 ≤ a) (h6 : a < 6) :
    act a s =
      ⟨(updatePhase (actionPhase (actionMap.getD a.toNat 'n') (spawnPhase s))).2 +
         (oxygenPhase (timerPhase
           (updatePhase (actionPhase (actionMap.getD a.toNat 'n') (spawnPhase s))).1)).2,
       (oxygenPhase (timerPhase
         (updatePhase (actionPhase (actionMap.getD a.toNat 'n') (spawnPhase s))).1)).1.terminal,
       none,
       (oxygenPhase (timerPhase
         (updatePhase (actionPhase (actionMap.getD a.toNat 'n') (spawnPhase s))).1)).1⟩ := by
  unfold act
  rw [if_neg (by omega : ¬ (a ≥ 6 ∨ a < 0))]
  rw [if_neg (by rw [hterm]; exact Bool.false_ne_true)]

end GoAtar.SeaQuest

namespace GoAtar.SeaQuest

/-- C8 amended: in SeaQuest, on every Act from a non-terminal state with
a valid action, (i) if the player ends the step below the surface row the
oxygen counter decreases by exactly one, and (ii) the episode reports
terminal=true on the Act call that BEGINS with negative oxygen — the
source checks `oxygen < 0` before the decrement, so termination arrives
two steps after oxygen first reaches zero, not on the step it hits zero. -/
theorem C8_seaquest_oxygen_mechanics (a : Int) (s : Game)
    (h0 : 0 ≤ a) (h6 : a < 6) (hterm : s.terminal = false) :
    ((act a s).state.agent.y > 0 →
      (act a s).state.agent.oxygen = s.agent.oxygen - 1) ∧
    (s.agent.oxygen < 0 → (act a s).terminal = true) := by
  have hsh := act_nonterminal_shape a s hterm h0 h6
  have hup := updatePhase_agent_oxy (actionPhase (actionMap.getD a.toNat 'n') (spawnPhase s))
  have hs3oxy :
      (timerPhase (updatePhase (actionPhase (actionMap.getD a.toNat 'n')
        (spawnPhase s))).1).agent.oxygen = s.agent.oxygen := by
    rw [timerPhase_agent, hup.1, actionPhase_agent_oxygen, spawnPhase_agent]
  constructor
  · intro hy
    rw [hsh] at hy ⊢
    dsimp only at hy ⊢
    rw [oxygenPhase_y] at hy
    rw [oxygenPhase_below _ hy, hs3oxy]
  · intro hneg
    rw [hsh]
    dsimp only
    exact oxygenPhase_terminal _ (by rw [hs3oxy]; exact hneg)

/-- A SeaQuest state just after oxygen has run out: the player floats at
(5, 1) below the surface with oxygen exactly 0 and no entities around. -/
def c8State : Game :=
  { ramping := false,
    agent := { x := 5, y := 1, dir := -1, moveTimer := 5, shotTimer := 0,
               oxygen := 0, diverCount := 0 },
    fBullets := [], eBullets := [], eFish := [], eSubs := [], divers := [],
    eSpawnSpeed := 20, eSpawnTimer := 10, dSpawnTimer := 10,
    moveSpeed := 5, rampIndex := 0, shotTimer := 0, atSurface := false,
    terminal := false, rng := [] }

/-- The same state with oxygen already negative. -/
def c8aState : Game :=
  { c8State with agent := { c8State.agent with oxygen := -1 } }

/-- The same state with plenty of oxygen. -/
def c8bState : Game :=
  { c8State with agent := { c8State.agent with oxygen := 50 } }

/-- C8 counterexample: the claim says the first step at which oxygen is
zero reports terminal=true.  From a state with oxygen 0 below the
surface, a no-op Act returns terminal=false and drives oxygen to -1; only
the following Act (starting at oxygen -1) reports terminal=true. -/
theorem C8_cex_oxygen_zero_not_terminal :
    c8State.agent.oxygen = 0 ∧ c8State.agent.y > 0 ∧
    (act 0 c8State).terminal = false ∧
    (act 0 c8State).state.agent.oxygen = -1 ∧
    (act 0 (act 0 c8State).state).terminal = true := by
  decide

/-- Witness for C8 at two concrete states: oxygen 50 below the surface
decrements to 49; oxygen -1 makes the step terminal. -/
theorem C8_seaquest_oxygen_mechanics_witness :
    (act 0 c8bState).state.agent.oxygen = c8bState.agent.oxygen - 1 ∧
    (act 0 c8aState).terminal = true :=
  ⟨(C8_seaquest_oxygen_mechanics 0 c8bState (by omega) (by omega) rfl).1 (by decide),
   (C8_seaquest_oxygen_mechanics 0 c8aState (by omega) (by omega) rfl).2 (by decide)⟩

/-- The state after Reset followed by right, right, right, fire, no-op
(action codes 3, 3, 3, 5, 0): the player walks to x = 8 facing right,
fires — the bullet spawns at the player and moves to x = 9 the same step
— and on the next step the bullet moves to x = 10, off the 10-wide grid. -/
def c3Run : Game :=
  run [3, 3, 3, 5, 0] (reset false [])

/-- C3: the claim says every live entity is in-bounds after every Act
(out-of-range entities are removed within the step).  The friendly-bullet
removal test reads `bullet.x() < 0 || bullet.y() > rows-1` — the y where
the x was meant — so a right-moving bullet is never removed: after the
five-step run above, the live bullet list holds a bullet at x = 10,
outside [0, 10), in a non-terminal state. -/
theorem C3_cex_friendly_bullet_leaves_grid :
    c3Run.fBullets = [{ x := 10, y := 0, dir := 1 }] ∧
    c3Run.terminal = false ∧
    (c3Run.fBullets.all fun b => decide (0 ≤ b.x ∧ b.x < 10)) = false := by
  decide

/-- A SeaQuest state whose row 3 holds a single LEFT-moving fish, with a
draw stream that makes `spawnEnemy` propose a left-entering candidate
(lr = 0, so direction -1, the same as the occupant) for row 3:
draws [0, 1, 2] give lr = 0, a fish (1 % 3 ≠ 0), and row 2 % 8 + 1 = 3. -/
def c9State : Game :=
  { ramping := false,
    agent := { x := 5, y := 0, dir := -1, moveTimer := 5, shotTimer := 0,
               oxygen := 200, diverCount := 0 },
    fBullets := [], eBullets := [], eFish := [⟨2, 3, -1, 5⟩], eSubs := [], divers := [],
    eSpawnSpeed := 20, eSpawnTimer := 5, dSpawnTimer := 10,
    moveSpeed := 5, rampIndex := 0, shotTimer := 0, atSurface := true,
    terminal := false, rng := [0, 1, 2] }

/-- C9: the claim says a spawn is dropped IFF the candidate row holds an
enemy moving in the OPPOSITE direction, and that same-direction occupants
do not block.  The source compares the occupant's ±1 direction against
the 0/1 draw (`enemy.direction() != lr`), so a left-entering candidate
(lr = 0) is blocked by ANY occupant: here the row-3 occupant moves left
(-1), the same direction as the candidate, yet nothing is spawned (the
draws are consumed and both enemy lists are unchanged).  For contrast, a
right-entering candidate (lr = 1) into a row with a right-moving fish
does spawn, as the claim describes. -/
theorem C9_cex_same_direction_blocks_left_spawn :
    c9State.eFish = [{ x := 2, y := 3, dir := -1, moveTimer := 5 }] ∧
    (spawnEnemy c9State).eFish = c9State.eFish ∧
    (spawnEnemy c9State).eSubs = [] ∧
    (spawnEnemy c9State).rng = [] ∧
    ((spawnEnemy { c9State with eFish := [⟨2, 3, 1, 5⟩], rng := [1, 1, 2] }).eFish.length = 2) := by
  decide

end GoAtar.SeaQuest

namespace GoAtar.Asterix

/-
Embedding of src/internal/game/asterix/Asterix.go with its Helpers.go.
The eight entity slots (`[]*Entity` with nil markers) are a list of
`Option Entity`.  Note: the Go `newPlayer(x, y, shotTimer, moveTimer)`
constructor writes its third positional argument into the struct's
`moveTimer` field and the fourth into `shotTimer` (the literal
`&player{x, y, shotTimer, moveTimer}` against fields
`{xPos, yPos, moveTimer, shotTimer}`), which the embedding reproduces.
-/

/-- The asterix `player` struct. -/
structure Player where
  x : Int
  y : Int
  moveTimer : Int
  shotTimer : Int
  deriving DecidableEq, Repr

/-- The asterix `Entity` struct (enemy or gold). -/
structure Entity where
  x : Int
  y : Int
  dir : Int
  gold : Bool
  deriving DecidableEq, Repr

/-- The mutable fields of the Go `Asterix` struct. -/
structure Game where
  ramping : Bool
  agent : Player
  entities : List (Option Entity)
  spawnSpeed : Int
  spawnTimer : Int
  moveSpeed : Int
  rampTimer : Int
  rampIndex : Int
  terminal : Bool
  rng : Rng
  deriving DecidableEq, Repr

/-- Asterix `Reset`. -/
def reset (ramping : Bool) (r : Rng) : Game :=
  { ramping := ramping,
    agent := { x := 5, y := 5, moveTimer := 0, shotTimer := 5 },
    entities := List.replicate 8 none,
    spawnSpeed := 10, spawnTimer := 10, moveSpeed := 5,
    rampTimer := 100, rampIndex := 0, terminal := false, rng := r }

/-- `spawnEntity`: draw side and kind, collect the free slots, give up at
capacity, otherwise fill a uniformly drawn free slot with an entity in
row `slot + 1`. -/
def spawnEntity (s : Game) : Game :=
  let lr := (rngIntn 2 s.rng).1
  let r1 := (rngIntn 2 s.rng).2
  let isGold := (rngIntn 3 r1).1 = 0
  let r2 := (rngIntn 3 r1).2
  let x : Int := if lr = 1 then 0 else 9
  let slotOptions := (List.range 8).filter fun i => s.entities.getD i none = none
  if slotOptions.length = 0 then { s with rng := r2 }
  else
    let k := (rngIntn slotOptions.length r2).1
    let r3 := (rngIntn slotOptions.length r2).2
    let slot := slotOptions.getD k 0
    { s with rng := r3,
             entities := s.entities.set slot
               (some { x := x, y := Int.ofNat slot + 1,
                       dir := if lr = 1 then 1 else -1, gold := isGold }) }

/-- The player move switch ('u' clamps at row 1, 'd' at row 8). -/
def resolveAction (action : Char) (p : Player) : Player :=
  if action = 'l' then { p with x := maxInt 0 (p.x - 1) }
  else if action = 'r' then { p with x := minInt 9 (p.x + 1) }
  else if action = 'u' then { p with y := maxInt 1 (p.y - 1) }
  else if action = 'd' then { p with y := minInt 8 (p.y + 1) }
  else p

/-- The first `// Update entities` loop: stationary collision check
(position equality), gold collection (+1), enemy contact terminal. -/
def collideStep (i : Nat) (sr : Game × Int) : Game × Int :=
  let s := sr.1
  match s.entities.getD i none with
  | none => sr
  | some e =>
    if e.x = s.agent.x ∧ e.y = s.agent.y then
      if e.gold then ({ s with entities := s.entities.set i none }, sr.2 + 1)
      else ({ s with terminal := true }, sr.2)
    else sr

/-- The second entity loop (run only on player-move frames): every entity
advances one cell, leaves through a side (slot cleared), then the
post-move contact check — which the source writes with `||` between the
coordinate equalities, and which runs on the local pointer even for an
entity whose slot was just cleared. -/
def moveStep (i : Nat) (sr : Game × Int) : Game × Int :=
  let s := sr.1
  match s.entities.getD i none with
  | none => sr
  | some e =>
    let e1 := { e with x := e.x + e.dir }
    let s1 := { s with entities := s.entities.set i (some e1) }
    let s2 :=
      if e1.x < 0 ∨ e1.x > 9 then { s1 with entities := s1.entities.set i none } else s1
    if e1.x = s2.agent.x ∨ e1.y = s2.agent.y then
      if e1.gold then ({ s2 with entities := s2.entities.set i none }, sr.2 + 1)
      else ({ s2 with terminal := true }, sr.2)
    else (s2, sr.2)

/-- The `// Update the difficulty` block. -/
def rampStep (s : Game) : Game :=
  if s.ramping ∧ (s.spawnSpeed > 1 ∨ s.moveSpeed > 1) then
    if s.rampTimer ≥ 0 then { s with rampTimer := s.rampTimer - 1 }
    else
      let s := if s.moveSpeed > 1 ∧ s.rampIndex % 2 = 1 then
          { s with moveSpeed := s.moveSpeed - 1 } else s
      let s := if s.spawnSpeed > 1 then { s with spawnSpeed := s.spawnSpeed - 1 } else s
      { s with rampIndex := s.rampIndex + 1, rampTimer := 100 }
  else s

/-- Asterix `Act`. -/
def act (a : Int) (s : Game) : StepResult Game :=
  if a ≥ 6 ∨ a < 0 then ⟨-1, false, some .invalidAction, s⟩
  else if s.terminal then ⟨0, s.terminal, none, s⟩
  else
    let s :=
      if s.spawnTimer ≤ 0 then
        let s1 := spawnEntity s
        { s1 with spawnTimer := s1.spawnSpeed }
      else s
    let s := { s with agent := resolveAction (actionMap.getD a.toNat 'n') s.agent }
    let sr := upTo 8 collideStep (s, 0)
    let sr :=
      if sr.1.agent.moveTimer = 0 then
        upTo 8 moveStep
          ({ sr.1 with agent := { sr.1.agent with moveTimer := sr.1.moveSpeed } }, sr.2)
      else sr
    let s := sr.1
    let s := if s.spawnTimer > 0 then { s with spawnTimer := s.spawnTimer - 1 } else s
    let s :=
      if ¬ s.agent.moveTimer = 0 then
        if s.agent.moveTimer > 0 then
          { s with agent := { s.agent with moveTimer := s.agent.moveTimer - 1 } }
        else s
      else s
    let s := rampStep s
    ⟨sr.2, s.terminal, none, s⟩

end GoAtar.Asterix

namespace GoAtar

/-- A reachable terminal Freeway state (any terminal state works for the
C1 statement; this one flags the reset state as finished). -/
def freewayTerminalState : Freeway.Game :=
  { Freeway.reset [] with terminal := true }

/-- A terminal SpaceInvaders state. -/
def spaceInvadersTerminalState : SpaceInvaders.Game :=
  { SpaceInvaders.reset false [] with terminal := true }

/-- A terminal SeaQuest state. -/
def seaQuestTerminalState : SeaQuest.Game :=
  { SeaQuest.reset false [] with terminal := true }

/-- A terminal Asterix state. -/
def asterixTerminalState : Asterix.Game :=
  { Asterix.reset false [] with terminal := true }

/-- C1 amended: once terminal, an Act with a VALID action code (0..5)
returns reward 0, terminal=true and no error in every game, and leaves
the entire game state — hence every observation — unchanged.  (For
out-of-range codes the claim fails: validation precedes the terminal
check in four of the five games, see the counterexample.) -/
theorem C1_terminal_absorption_valid_actions (a : Int) (h0 : 0 ≤ a) (h6 : a < 6)
    (b : Breakout.Game) (hb : b.terminal = true)
    (f : Freeway.Game) (hf : f.terminal = true)
    (v : SpaceInvaders.Game) (hv : v.terminal = true)
    (q : SeaQuest.Game) (hq : q.terminal = true)
    (x : Asterix.Game) (hx : x.terminal = true) :
    Breakout.act a b = ⟨0, true, none, b⟩ ∧
    Freeway.act a f = some ⟨0, true, none, f⟩ ∧
    SpaceInvaders.act a v = ⟨0, true, none, v⟩ ∧
    SeaQuest.act a q = ⟨0, true, none, q⟩ ∧
    Asterix.act a x = ⟨0, true, none, x⟩ := by
  refine ⟨?_, ?_, ?_, ?_, ?_⟩
  · unfold Breakout.act
    rw [if_neg (by omega : ¬ (a ≥ 6 ∨ a < 0)), if_pos hb, hb]
  · unfold Freeway.act
    rw [if_pos hf, hf]
  · unfold SpaceInvaders.act
    rw [if_neg (by omega : ¬ (a ≥ 6 ∨ a < 0)), if_pos hv, hv]
  · unfold SeaQuest.act
    rw [if_neg (by omega : ¬ (a ≥ 6 ∨ a < 0)), if_pos hq, hq]
  · unfold Asterix.act
    rw [if_neg (by omega : ¬ (a ≥ 6 ∨ a < 0)), if_pos hx, hx]

set_option maxRecDepth 8000 in
/-- Witness for C1 at action 0 and concrete terminal states of all five
games (the Breakout one reached by an actual six-step play-out). -/
theorem C1_terminal_absorption_valid_actions_witness :
    Breakout.act 0 Breakout.c1TerminalState =
      ⟨0, true, none, Breakout.c1TerminalState⟩ ∧
    Freeway.act 0 freewayTerminalState = some ⟨0, true, none, freewayTerminalState⟩ ∧
    SpaceInvaders.act 0 spaceInvadersTerminalState =
      ⟨0, true, none, spaceInvadersTerminalState⟩ ∧
    SeaQuest.act 0 seaQuestTerminalState = ⟨0, true, none, seaQuestTerminalState⟩ ∧
    Asterix.act 0 asterixTerminalState = ⟨0, true, none, asterixTerminalState⟩ :=
  C1_terminal_absorption_valid_actions 0 (by omega) (by omega)
    Breakout.c1TerminalState (by decide)
    freewayTerminalState rfl
    spaceInvadersTerminalState rfl
    seaQuestTerminalState rfl
    asterixTerminalState rfl

end GoAtar
